import Mathlib

/-!
Shallow embedding of `src/mortgage_calculator.py` (a Python 2 module).

Modelling decisions:
* Python floats are modelled as exact rationals (`ℚ`).  All numeric literals
  of the source (`0.025`, `0.2`, `0.018`, …) are exact decimal rationals.
* A decoded JSON value is either a number or a string (`JVal`); a request is
  an association list of fields, mirroring the dict produced by `json.loads`.
  `float(v)` applied to a string raises `ValueError` in the model (numeric
  strings such as `"12"`, which CPython would parse, are not modelled; no
  claim depends on them).
* Python exceptions are modelled with `Except PyErr`: `float()` on a
  non-numeric value raises `ValueError`, a missing dict key or an
  unrecognised schedule label raises `KeyError`, and division by a zero
  denominator raises `ZeroDivisionError`.  The `try/except` blocks of the
  source become the explicit handler `handle_errors`, which catches exactly
  `ValueError` and `KeyError` (for `change_interest_rate`, only
  `ValueError`), as the source does; any other exception propagates as
  `.error`.
* Python `**` with a float exponent is modelled by `fpow`, which agrees with
  the mathematical power whenever the exponent is a non-negative integer
  (the only case exercised by the claims) and returns the junk value 0
  otherwise.
* Python 2 `round(x, 2)` (round half away from zero to 2 decimal places) is
  `round2`.
* The process-wide mutable global `MORTGAGE_INTEREST_RATE` becomes an
  explicit state parameter threaded through the three operations; the
  constant `MORTGAGE_INTEREST_RATE` below is its initial value `0.025`.
-/

namespace MortgageCalc

/-- A decoded JSON scalar: a number or a string. -/
inductive JVal where
  | jnum (q : ℚ)
  | jstr (s : String)
deriving DecidableEq, Repr

/-- A value in a response object: a number or an error string. -/
inductive RVal where
  | rnum (q : ℚ)
  | rstr (s : String)
deriving DecidableEq, Repr

/-- A decoded request object: fields of a JSON dict. -/
abbrev Request := List (String × JVal)

/-- A response object as serialised by `json.dumps`. -/
abbrev Response := List (String × RVal)

/-- The Python exceptions the module can raise. -/
inductive PyErr where
  | valueError
  | keyError
  | zeroDivisionError
deriving DecidableEq, Repr

/-- Dict lookup `request_parameter[key]` (first binding wins). -/
def lookupField : Request → String → Option JVal
  | [], _ => none
  | (k, v) :: rest, key => if k = key then some v else lookupField rest key

/-- `float(v)`: a number converts, a string raises `ValueError`
(numeric strings are not modelled). -/
def pyFloat : JVal → Except PyErr ℚ
  | .jnum q => .ok q
  | .jstr _ => .error .valueError

/-- `float(request_parameter[key])`: `KeyError` when the key is absent,
then `ValueError` when the value is not numeric. -/
def getFloat (req : Request) (key : String) : Except PyErr ℚ :=
  match lookupField req key with
  | none => .error .keyError
  | some v => pyFloat v

/-- Initial value of the mutable global `MORTGAGE_INTEREST_RATE = 0.025`. -/
def MORTGAGE_INTEREST_RATE : ℚ := 0.025

/-- `MIN_DOWN_PAYMENT_RATIO_FIRST_500K = 0.05`. -/
def MIN_DOWN_PAYMENT_RATIO_FIRST_500K : ℚ := 0.05

/-- `MIN_DOWN_PAYMENT_RATIO_OVER_500K = 0.1`. -/
def MIN_DOWN_PAYMENT_RATIO_OVER_500K : ℚ := 0.1

/-- The dict `NUMBER_OF_PAYMENT_PER_YEAR = {"weekly": 52, "biweekly": 26,
"monthly": 12}` as a lookup; any other key (including a number) is a
`KeyError`, signalled here by `none`. -/
def NUMBER_OF_PAYMENT_PER_YEAR : JVal → Option ℕ
  | .jstr "weekly" => some 52
  | .jstr "biweekly" => some 26
  | .jstr "monthly" => some 12
  | _ => none

/-- `float(NUMBER_OF_PAYMENT_PER_YEAR[request_parameter["payment schedule"]])`:
`KeyError` if the field is absent or its value is not a recognised label. -/
def getSchedule (req : Request) : Except PyErr ℚ :=
  match lookupField req "payment schedule" with
  | none => .error .keyError
  | some v =>
    match NUMBER_OF_PAYMENT_PER_YEAR v with
    | none => .error .keyError
    | some k => .ok (k : ℚ)

/-- `minimum_down_payment_calculator` (source lines 11-18). -/
def minimum_down_payment_calculator (asking_price : ℚ) : ℚ :=
  if asking_price ≤ 500000 then
    asking_price * MIN_DOWN_PAYMENT_RATIO_FIRST_500K
  else
    500000 * MIN_DOWN_PAYMENT_RATIO_FIRST_500K
      + (asking_price - 500000) * MIN_DOWN_PAYMENT_RATIO_OVER_500K

/-- `mortgage_insurance_calculator` (source lines 21-34).
`float(down_payment) / asking_price` raises `ZeroDivisionError` when
`asking_price = 0`; otherwise the `if/elif` ladder of the source. -/
def mortgage_insurance_calculator (down_payment asking_price : ℚ) :
    Except PyErr ℚ :=
  if asking_price = 0 then .error .zeroDivisionError
  else
    let down_payment_ratio := down_payment / asking_price
    if down_payment_ratio ≥ 0.2 ∨ asking_price > 1000000 then .ok 0
    else if 0.15 ≤ down_payment_ratio ∧ down_payment_ratio < 0.2 then
      .ok (asking_price * 0.018)
    else if 0.1 ≤ down_payment_ratio ∧ down_payment_ratio < 0.15 then
      .ok (asking_price * 0.024)
    else .ok (asking_price * 0.0315)

/-- Python `x ** e` restricted to the exponents the module uses: for a
non-negative integer exponent it is the ordinary power; otherwise junk 0. -/
def fpow (x e : ℚ) : ℚ :=
  if 0 ≤ e.num ∧ e.den = 1 then x ^ e.num.toNat else 0

/-- The annuity factor `r * (1+r)**n / ((1+r)**n - 1)` shared by source
lines 80-82 and 137-139. -/
def annuity_factor (r n : ℚ) : ℚ :=
  (r * fpow (1 + r) n) / (fpow (1 + r) n - 1)

/-- Python 2 `round(x, 0)`: round half away from zero, as an integer. -/
def pyRound (x : ℚ) : ℤ :=
  if 0 ≤ x then ⌊x + 1/2⌋ else -⌊-x + 1/2⌋

/-- Python 2 `round(x, 2)`. -/
def round2 (x : ℚ) : ℚ := (pyRound (x * 100) : ℚ) / 100

/-- The `try:` body of `payment_amount` (source lines 55-87), with the
global interest rate passed explicitly. -/
def payment_amount_body (rate : ℚ) (request_json : Request) :
    Except PyErr Response := do
  let asking_price ← getFloat request_json "asking price"
  let down_payment ← getFloat request_json "down payment"
  let scheduled_payment_per_year ← getSchedule request_json
  let amortization_period ← getFloat request_json "amortization period"
  if asking_price < 0 ∨ down_payment < 0 ∨
      ¬(5 ≤ amortization_period ∧ amortization_period ≤ 25) then
    return [("payment amount", .rstr "Error: given value is not allowed")]
  else if down_payment < minimum_down_payment_calculator asking_price then
    return [("payment amount",
      .rstr "Error: minimum down payment is not satisfied")]
  else do
    let mortgage_insurance ←
      mortgage_insurance_calculator down_payment asking_price
    let scheduled_payment_times :=
      amortization_period * scheduled_payment_per_year
    let scheduled_payment_interest_rate := rate / scheduled_payment_per_year
    return [("payment amount", .rnum (round2
      ((asking_price - down_payment + mortgage_insurance) *
        annuity_factor scheduled_payment_interest_rate
          scheduled_payment_times)))]

/-- The `except` clauses shared by `payment_amount` and `mortgage_amount`:
`ValueError` and `KeyError` are converted into error responses under `key`;
anything else propagates. -/
def handle_errors (key : String) :
    Except PyErr Response → Except PyErr Response
  | .ok resp => .ok resp
  | .error .valueError =>
    .ok [(key, .rstr "Error: non-numerical values are given")]
  | .error .keyError =>
    .ok [(key,
      .rstr "Error: payment schedule should be 'weekly', 'biweekly' or 'monthly'")]
  | .error e => .error e

/-- `payment_amount` (source lines 37-97). -/
def payment_amount (rate : ℚ) (request_json : Request) :
    Except PyErr Response :=
  handle_errors "payment amount" (payment_amount_body rate request_json)

/-- `float(request_parameter["down payment"] if "down payment" in
request_parameter else 0)` (source line 124). -/
def getDownPaymentOrZero (req : Request) : Except PyErr ℚ :=
  match lookupField req "down payment" with
  | none => .ok 0
  | some v => pyFloat v

/-- The `try:` body of `mortgage_amount` (source lines 120-144). -/
def mortgage_amount_body (rate : ℚ) (request_json : Request) :
    Except PyErr Response := do
  let payment_amt ← getFloat request_json "payment amount"
  let down_payment ← getDownPaymentOrZero request_json
  let scheduled_payment_per_year ← getSchedule request_json
  let amortization_period ← getFloat request_json "amortization period"
  if payment_amt < 0 ∨ down_payment < 0 ∨
      ¬(5 ≤ amortization_period ∧ amortization_period ≤ 25) then
    return [("mortgage amount", .rstr "Error: given value is not allowed")]
  else
    let scheduled_payment_times :=
      amortization_period * scheduled_payment_per_year
    let scheduled_payment_interest_rate := rate / scheduled_payment_per_year
    return [("mortgage amount", .rnum (round2
      (payment_amt / annuity_factor scheduled_payment_interest_rate
          scheduled_payment_times + down_payment)))]

/-- `mortgage_amount` (source lines 100-154). -/
def mortgage_amount (rate : ℚ) (request_json : Request) :
    Except PyErr Response :=
  handle_errors "mortgage amount" (mortgage_amount_body rate request_json)

/-- The `try:` body of `change_interest_rate` (source lines 173-193):
returns the new global rate together with the response. -/
def change_interest_rate_body (rate : ℚ) (request_json : Request) :
    Except PyErr (ℚ × Response) := do
  let v ← getFloat request_json "interest rate"
  let new_interest_rate := v / 100
  if new_interest_rate ≤ 0 then
    return (rate,
      [("old interest rate", .rnum rate),
       ("new interest rate", .rstr "Error: negative interest rate is given")])
  else
    return (new_interest_rate,
      [("old interest rate", .rnum rate),
       ("new interest rate", .rnum new_interest_rate)])

/-- `change_interest_rate` (source lines 157-198).  The source catches only
`ValueError` here (and writes the error under the key `"mortgage amount"`);
a `KeyError` propagates. -/
def change_interest_rate (rate : ℚ) (request_json : Request) :
    Except PyErr (ℚ × Response) :=
  match change_interest_rate_body rate request_json with
  | .ok x => .ok x
  | .error .valueError =>
    .ok (rate, [("mortgage amount",
      .rstr "Error: non-numerical values are given")])
  | .error e => .error e

/-- One call to the module: the three public operations. -/
inductive Op where
  | payment (req : Request)
  | mortgage (req : Request)
  | changeRate (req : Request)

/-- Effect of one operation on the global interest rate: only
`change_interest_rate` can modify it, and only on its success path. -/
def step (rate : ℚ) : Op → ℚ
  | .payment _ => rate
  | .mortgage _ => rate
  | .changeRate req =>
    match change_interest_rate rate req with
    | .ok (r2, _) => r2
    | .error _ => rate

/-- The global interest rate after a sequence of operations, starting from
the initial `MORTGAGE_INTEREST_RATE = 0.025`. -/
def run (ops : List Op) : ℚ := ops.foldl step MORTGAGE_INTEREST_RATE

/-! ### Concrete requests used in witnesses and counterexamples -/

/-- The spec's concrete payment scenario: price 630000, down payment
300000, monthly schedule, 10-year amortization. -/
def req630 : Request :=
  [("asking price", .jnum 630000), ("down payment", .jnum 300000),
   ("payment schedule", .jstr "monthly"), ("amortization period", .jnum 10)]

/-- A request with asking price 0 and down payment 1 that passes every
validation check of `payment_amount`. -/
def reqPriceZeroDown1 : Request :=
  [("asking price", .jnum 0), ("down payment", .jnum 1),
   ("payment schedule", .jstr "monthly"), ("amortization period", .jnum 10)]

/-- A request with asking price 0 and down payment 0 that passes every
validation check of `payment_amount`. -/
def reqPriceZeroDown0 : Request :=
  [("asking price", .jnum 0), ("down payment", .jnum 0),
   ("payment schedule", .jstr "monthly"), ("amortization period", .jnum 10)]

/-- A request whose schedule is unrecognised and whose amortization period
is non-numeric at the same time. -/
def reqDailyBadPeriod : Request :=
  [("asking price", .jnum 1), ("down payment", .jnum 1),
   ("payment schedule", .jstr "daily"), ("amortization period", .jstr "abc")]

/-- A request whose amortization period is 30 (outside [5, 25]) and whose
asking price is non-numeric. -/
def reqBadPricePeriod30 : Request :=
  [("asking price", .jstr "abc"), ("down payment", .jnum 0),
   ("payment schedule", .jstr "monthly"), ("amortization period", .jnum 30)]

/-- The round-trip scenario: price 330000, down payment 0, monthly
schedule, 10-year amortization. -/
def reqRoundTrip : Request :=
  [("asking price", .jnum 330000), ("down payment", .jnum 0),
   ("payment schedule", .jstr "monthly"), ("amortization period", .jnum 10)]

/-- The spec's concrete mortgage-amount scenario: payment 3010, no down
payment field, monthly schedule, 10-year amortization. -/
def reqMortgage3010 : Request :=
  [("payment amount", .jnum 3010),
   ("payment schedule", .jstr "monthly"), ("amortization period", .jnum 10)]

/-- An interest-rate-change request whose rate is negative. -/
def reqRateNeg5 : Request := [("interest rate", .jnum (-5))]

end MortgageCalc

namespace MortgageCalc

/-! ### Reduction helpers for the `Except` embedding -/

theorem ok_bind {α β : Type} (a : α) (f : α → Except PyErr β) :
    (Except.ok a : Except PyErr α) >>= f = f a := rfl

theorem error_bind {α β : Type} (e : PyErr) (f : α → Except PyErr β) :
    (Except.error e : Except PyErr α) >>= f = Except.error e := rfl

theorem pure_eq_ok {α : Type} (a : α) :
    (pure a : Except PyErr α) = Except.ok a := rfl

/-- C2: the tiered minimum-down-payment rule: 5% up to 500000, then
25000 plus 10% of the excess, and the two branch formulas agree exactly at
the 500000 boundary (both give 25000). -/
theorem C2_minimum_down_payment_tiers (ap : ℚ) :
    (ap ≤ 500000 → minimum_down_payment_calculator ap = ap * (5 / 100)) ∧
    (500000 < ap →
      minimum_down_payment_calculator ap
        = 25000 + (ap - 500000) * (10 / 100)) ∧
    minimum_down_payment_calculator 500000 = 25000 ∧
    (500000 : ℚ) * (5 / 100) = 25000 + ((500000 : ℚ) - 500000) * (10 / 100) := by
  refine ⟨fun h => ?_, fun h => ?_, ?_, by norm_num⟩
  · rw [minimum_down_payment_calculator, if_pos h,
      MIN_DOWN_PAYMENT_RATIO_FIRST_500K]
    norm_num
  · rw [minimum_down_payment_calculator, if_neg (not_le.mpr h),
      MIN_DOWN_PAYMENT_RATIO_FIRST_500K, MIN_DOWN_PAYMENT_RATIO_OVER_500K]
    norm_num
  · rw [minimum_down_payment_calculator, if_pos le_rfl,
      MIN_DOWN_PAYMENT_RATIO_FIRST_500K]
    norm_num

/-- Witness for C2 at asking price 600000. -/
theorem C2_minimum_down_payment_tiers_witness :
    minimum_down_payment_calculator 600000
      = 25000 + ((600000 : ℚ) - 500000) * (10 / 100) :=
  (C2_minimum_down_payment_tiers 600000).2.1 (by norm_num)

/-- C3: the mortgage-insurance tiers, read as the ordered guard chain of the
source: 0 when the down-payment ratio is at least 0.20 or the price exceeds
1,000,000; otherwise 1.8% of the price for ratio in [0.15, 0.20), 2.4% for
ratio in [0.10, 0.15), and 3.15% for ratio below 0.10. -/
theorem C3_insurance_tiers (dp ap : ℚ) (h : 0 < ap) :
    (0.2 ≤ dp / ap ∨ 1000000 < ap →
      mortgage_insurance_calculator dp ap = Except.ok 0) ∧
    (ap ≤ 1000000 → 0.15 ≤ dp / ap → dp / ap < 0.2 →
      mortgage_insurance_calculator dp ap = Except.ok (ap * 0.018)) ∧
    (ap ≤ 1000000 → 0.1 ≤ dp / ap → dp / ap < 0.15 →
      mortgage_insurance_calculator dp ap = Except.ok (ap * 0.024)) ∧
    (ap ≤ 1000000 → dp / ap < 0.1 →
      mortgage_insurance_calculator dp ap = Except.ok (ap * 0.0315)) := by
  rw [mortgage_insurance_calculator, if_neg h.ne']
  refine ⟨fun hc => ?_, fun h1 h2 h3 => ?_, fun h1 h2 h3 => ?_,
    fun h1 h2 => ?_⟩
  · rw [if_pos]
    exact hc
  · rw [if_neg (by push_neg; exact ⟨h3, h1⟩), if_pos ⟨h2, h3⟩]
  · rw [if_neg (by push_neg; exact ⟨by linarith, h1⟩),
      if_neg (by push_neg; intro hge; linarith), if_pos ⟨h2, h3⟩]
  · rw [if_neg (by push_neg; exact ⟨by linarith, h1⟩),
      if_neg (by push_neg; intro hge; linarith),
      if_neg (by push_neg; intro hge; linarith)]

/-- Witness for C3: down payment 300000 on asking price 630000 has ratio
at least 0.20, so insurance is 0. -/
theorem C3_insurance_tiers_witness :
    mortgage_insurance_calculator 300000 630000 = Except.ok 0 :=
  (C3_insurance_tiers 300000 630000 (by norm_num)).1 (Or.inl (by norm_num))

end MortgageCalc

namespace MortgageCalc

/-- Wiring of the success path of `payment_amount`: when every field parses,
the bound checks pass, the minimum down payment is met and the insurance
call succeeds, the result is the rounded annuity payment. -/
theorem payment_amount_ok (rate ap dp ppy am ins : ℚ)
    (req : Request)
    (hap : getFloat req "asking price" = Except.ok ap)
    (hdp : getFloat req "down payment" = Except.ok dp)
    (hs : getSchedule req = Except.ok ppy)
    (ham : getFloat req "amortization period" = Except.ok am)
    (hap0 : 0 ≤ ap) (hdp0 : 0 ≤ dp)
    (ham1 : 5 ≤ am) (ham2 : am ≤ 25)
    (hmin : minimum_down_payment_calculator ap ≤ dp)
    (hins : mortgage_insurance_calculator dp ap = Except.ok ins) :
    payment_amount rate req = Except.ok [("payment amount", RVal.rnum
      (round2 ((ap - dp + ins) *
        ((rate / ppy * fpow (1 + rate / ppy) (am * ppy)) /
          (fpow (1 + rate / ppy) (am * ppy) - 1)))))] := by
  unfold payment_amount payment_amount_body
  rw [hap, hdp, hs, ham]
  simp only [ok_bind]
  rw [if_neg (by push_neg; exact ⟨hap0, hdp0, ham1, ham2⟩),
    if_neg (not_lt.mpr hmin), hins]
  simp only [ok_bind, pure_eq_ok, annuity_factor]
  rfl

/-- Wiring of the success path of `mortgage_amount`: when every field parses
(the down payment defaulting to 0 when the field is absent) and the bound
checks pass, the result is the rounded inverse annuity principal plus the
down payment; no minimum-down-payment or insurance rule is involved. -/
theorem mortgage_amount_ok (rate pm dp ppy am : ℚ)
    (req : Request)
    (hpm : getFloat req "payment amount" = Except.ok pm)
    (hdp : getDownPaymentOrZero req = Except.ok dp)
    (hs : getSchedule req = Except.ok ppy)
    (ham : getFloat req "amortization period" = Except.ok am)
    (hpm0 : 0 ≤ pm) (hdp0 : 0 ≤ dp)
    (ham1 : 5 ≤ am) (ham2 : am ≤ 25) :
    mortgage_amount rate req = Except.ok [("mortgage amount", RVal.rnum
      (round2 (pm /
        ((rate / ppy * fpow (1 + rate / ppy) (am * ppy)) /
          (fpow (1 + rate / ppy) (am * ppy) - 1)) + dp)))] := by
  unfold mortgage_amount mortgage_amount_body
  rw [hpm, hdp, hs, ham]
  simp only [ok_bind]
  rw [if_neg (by push_neg; exact ⟨hpm0, hdp0, ham1, ham2⟩)]
  simp only [pure_eq_ok, annuity_factor]
  rfl

/-- `fpow` agrees with the ordinary power on natural-number exponents. -/
theorem fpow_natCast (x : ℚ) (n : ℕ) : fpow x (n : ℚ) = x ^ n := by
  rw [fpow, if_pos]
  · norm_num
  · refine ⟨?_, Rat.den_natCast n⟩
    rw [Rat.num_natCast]
    exact Int.ofNat_nonneg n

/-- Evaluation rule for Python 2 `round(x, 2)` on non-negative values. -/
theorem round2_eq (x : ℚ) (k : ℤ) (h1 : 0 ≤ x * 100)
    (h2 : (k : ℚ) ≤ x * 100 + 1 / 2) (h3 : x * 100 + 1 / 2 < k + 1) :
    round2 x = (k : ℚ) / 100 := by
  rw [round2, pyRound, if_pos h1, Int.floor_eq_iff.mpr ⟨h2, by linarith⟩]

end MortgageCalc

namespace MortgageCalc

/-- Exact value of the rounded annuity payment for the concrete scenario:
principal 330000, monthly rate 0.025/12, 120 periods. -/
theorem pay630_eval :
    round2 ((630000 - 300000 + 0) *
      ((MORTGAGE_INTEREST_RATE / 12 *
          fpow (1 + MORTGAGE_INTEREST_RATE / 12) (10 * 12)) /
        (fpow (1 + MORTGAGE_INTEREST_RATE / 12) (10 * 12) - 1)))
      = 311091 / 100 := by
  have h120 : ((10 : ℚ) * 12) = ((120 : ℕ) : ℚ) := by norm_num
  rw [h120, fpow_natCast, MORTGAGE_INTEREST_RATE]
  rw [show round2 _ = ((311091 : ℤ) : ℚ) / 100 from
    round2_eq _ 311091 (by norm_num) (by norm_num) (by norm_num)]
  norm_num

/-- C1, counterexample: on the spec's own concrete scenario the code
returns exactly 3110.91, not approximately 3108.05 (the two differ by
2.86); moreover a request with asking price 0 that passes every validation
check named by the claim makes `payment_amount` raise an uncaught
`ZeroDivisionError` instead of returning the formula's value. -/
theorem C1_counterexample :
    payment_amount MORTGAGE_INTEREST_RATE req630
      = Except.ok [("payment amount", RVal.rnum (311091 / 100))] ∧
    ¬(|(311091 : ℚ) / 100 - 310805 / 100| ≤ 1) ∧
    payment_amount MORTGAGE_INTEREST_RATE reqPriceZeroDown1
      = Except.error PyErr.zeroDivisionError := by
  refine ⟨?_, ?_, ?_⟩
  · rw [payment_amount_ok MORTGAGE_INTEREST_RATE 630000 300000 12 10 0 req630
      rfl rfl rfl rfl (by norm_num) (by norm_num) (by norm_num) (by norm_num)
      (by norm_num [minimum_down_payment_calculator,
        MIN_DOWN_PAYMENT_RATIO_FIRST_500K, MIN_DOWN_PAYMENT_RATIO_OVER_500K])
      (by norm_num [mortgage_insurance_calculator]), pay630_eval]
  · rw [abs_of_nonneg (by norm_num)]
    norm_num
  · unfold payment_amount payment_amount_body
    rw [show getFloat reqPriceZeroDown1 "asking price" = Except.ok 0 from rfl,
      show getFloat reqPriceZeroDown1 "down payment" = Except.ok 1 from rfl,
      show getSchedule reqPriceZeroDown1 = Except.ok 12 from rfl,
      show getFloat reqPriceZeroDown1 "amortization period" = Except.ok 10
        from rfl]
    simp only [ok_bind]
    rw [if_neg (by norm_num),
      if_neg (by norm_num [minimum_down_payment_calculator,
        MIN_DOWN_PAYMENT_RATIO_FIRST_500K]),
      show mortgage_insurance_calculator 1 0
        = Except.error PyErr.zeroDivisionError from rfl]
    rfl

/-- C1 (amended): for every payment-amount request that passes all
validation and has a strictly positive asking price, `payment_amount`
returns `round(P * (r*(1+r)^n) / ((1+r)^n - 1), 2)` where `P` is asking
price minus down payment plus the insurance produced by the insurance
rule, `r` the rate divided by the payments-per-year of the schedule, and
`n` the amortization years times the payments-per-year (the concrete
scenario of the spec yields 3110.91, and an asking price of exactly 0
instead raises an uncaught `ZeroDivisionError`). -/
theorem C1_payment_amount_formula (rate ap dp ppy am ins : ℚ)
    (req : Request)
    (hap : getFloat req "asking price" = Except.ok ap)
    (hdp : getFloat req "down payment" = Except.ok dp)
    (hs : getSchedule req = Except.ok ppy)
    (ham : getFloat req "amortization period" = Except.ok am)
    (hap0 : 0 < ap) (hdp0 : 0 ≤ dp)
    (ham1 : 5 ≤ am) (ham2 : am ≤ 25)
    (hmin : minimum_down_payment_calculator ap ≤ dp)
    (hins : mortgage_insurance_calculator dp ap = Except.ok ins) :
    payment_amount rate req = Except.ok [("payment amount", RVal.rnum
      (round2 ((ap - dp + ins) *
        ((rate / ppy * fpow (1 + rate / ppy) (am * ppy)) /
          (fpow (1 + rate / ppy) (am * ppy) - 1)))))] :=
  payment_amount_ok rate ap dp ppy am ins req hap hdp hs ham hap0.le hdp0
    ham1 ham2 hmin hins

/-- Witness for C1 at the spec's concrete scenario. -/
theorem C1_payment_amount_formula_witness :
    payment_amount MORTGAGE_INTEREST_RATE req630
      = Except.ok [("payment amount", RVal.rnum
        (round2 ((630000 - 300000 + 0) *
          ((MORTGAGE_INTEREST_RATE / 12 *
              fpow (1 + MORTGAGE_INTEREST_RATE / 12) (10 * 12)) /
            (fpow (1 + MORTGAGE_INTEREST_RATE / 12) (10 * 12) - 1)))))] :=
  C1_payment_amount_formula MORTGAGE_INTEREST_RATE 630000 300000 12 10 0
    req630 rfl rfl rfl rfl (by norm_num) (by norm_num) (by norm_num)
    (by norm_num)
    (by norm_num [minimum_down_payment_calculator,
      MIN_DOWN_PAYMENT_RATIO_FIRST_500K, MIN_DOWN_PAYMENT_RATIO_OVER_500K])
    (by norm_num [mortgage_insurance_calculator])

end MortgageCalc

namespace MortgageCalc

/-- C4: for every mortgage-amount request that passes validation (payment
amount ≥ 0, down payment ≥ 0 — defaulting to 0 when the field is absent —
recognised schedule, amortization period in [5, 25]), `mortgage_amount`
returns `round(payment / ((r*(1+r)^n) / ((1+r)^n - 1)) + down payment, 2)`,
the down payment being added; neither the minimum-down-payment rule nor the
insurance rule appears on this path. -/
theorem C4_mortgage_amount_formula (rate pm dp ppy am : ℚ)
    (req : Request)
    (hpm : getFloat req "payment amount" = Except.ok pm)
    (hdp : getDownPaymentOrZero req = Except.ok dp)
    (hs : getSchedule req = Except.ok ppy)
    (ham : getFloat req "amortization period" = Except.ok am)
    (hpm0 : 0 ≤ pm) (hdp0 : 0 ≤ dp)
    (ham1 : 5 ≤ am) (ham2 : am ≤ 25) :
    mortgage_amount rate req = Except.ok [("mortgage amount", RVal.rnum
      (round2 (pm /
        ((rate / ppy * fpow (1 + rate / ppy) (am * ppy)) /
          (fpow (1 + rate / ppy) (am * ppy) - 1)) + dp)))] ∧
    (lookupField req "down payment" = none → dp = 0) := by
  refine ⟨mortgage_amount_ok rate pm dp ppy am req hpm hdp hs ham hpm0 hdp0
    ham1 ham2, fun habs => ?_⟩
  rw [getDownPaymentOrZero, habs] at hdp
  exact (Except.ok.injEq _ _).mp hdp.symm

/-- Witness for C4 at the spec's concrete scenario (payment 3010, no down
payment field, monthly, 10 years). -/
theorem C4_mortgage_amount_formula_witness :
    mortgage_amount MORTGAGE_INTEREST_RATE reqMortgage3010
      = Except.ok [("mortgage amount", RVal.rnum
        (round2 (3010 /
          ((MORTGAGE_INTEREST_RATE / 12 *
              fpow (1 + MORTGAGE_INTEREST_RATE / 12) (10 * 12)) /
            (fpow (1 + MORTGAGE_INTEREST_RATE / 12) (10 * 12) - 1)) + 0)))] :=
  (C4_mortgage_amount_formula MORTGAGE_INTEREST_RATE 3010 0 12 10
    reqMortgage3010 rfl rfl rfl rfl (by norm_num) le_rfl (by norm_num)
    (by norm_num)).1

end MortgageCalc

namespace MortgageCalc

/-- A successful `change_interest_rate` either keeps the old rate (the
rejected non-positive update) or installs a strictly positive one. -/
theorem change_interest_rate_ok_cases (rate r2 : ℚ) (resp : Response)
    (req : Request)
    (h : change_interest_rate rate req = Except.ok (r2, resp)) :
    r2 = rate ∨ 0 < r2 := by
  unfold change_interest_rate at h
  rcases hb : change_interest_rate_body rate req with e | ⟨r3, resp'⟩
  · rw [hb] at h
    cases e
    · simp only [Except.ok.injEq, Prod.mk.injEq] at h
      exact Or.inl h.1.symm
    · exact absurd h (by simp)
    · exact absurd h (by simp)
  · rw [hb] at h
    simp only [Except.ok.injEq, Prod.mk.injEq] at h
    unfold change_interest_rate_body at hb
    rcases hg : getFloat req "interest rate" with e | v
    · rw [hg, error_bind] at hb
      exact absurd hb (by simp)
    · rw [hg, ok_bind] at hb
      by_cases hv : v / 100 ≤ 0
      · rw [if_pos hv] at hb
        simp only [pure_eq_ok, Except.ok.injEq, Prod.mk.injEq] at hb
        exact Or.inl (h.1 ▸ hb.1.symm)
      · rw [if_neg hv] at hb
        simp only [pure_eq_ok, Except.ok.injEq, Prod.mk.injEq] at hb
        refine Or.inr ?_
        rw [← h.1, ← hb.1]
        exact lt_of_not_le hv

/-- One operation keeps the stored rate strictly positive. -/
theorem step_pos (rate : ℚ) (op : Op) (h : 0 < rate) : 0 < step rate op := by
  cases op with
  | payment req => exact h
  | mortgage req => exact h
  | changeRate req =>
    simp only [step]
    rcases hg : change_interest_rate rate req with e | ⟨r2, resp⟩
    · exact h
    · rcases change_interest_rate_ok_cases rate r2 resp req hg with h' | h'
      · exact h' ▸ h
      · exact h'

/-- Folding `step` preserves positivity of the rate. -/
theorem foldl_step_pos (ops : List Op) (rate : ℚ) (h : 0 < rate) :
    0 < ops.foldl step rate := by
  induction ops generalizing rate with
  | nil => exact h
  | cons op rest ih => exact ih (step rate op) (step_pos rate op h)

/-- C5: a rate-change request whose parsed rate divided by 100 is not
positive leaves the stored rate unchanged and reports an error string in
place of the new rate; consequently, starting from the default 0.025, the
stored rate is strictly positive after any sequence of operations. -/
theorem C5_interest_rate_invariant (rate v : ℚ) (req : Request)
    (hv : getFloat req "interest rate" = Except.ok v)
    (hnp : v / 100 ≤ 0) :
    change_interest_rate rate req = Except.ok (rate,
      [("old interest rate", RVal.rnum rate),
       ("new interest rate",
        RVal.rstr "Error: negative interest rate is given")]) ∧
    ∀ ops : List Op, 0 < run ops := by
  constructor
  · unfold change_interest_rate change_interest_rate_body
    rw [hv]
    simp only [ok_bind]
    rw [if_pos hnp]
    rfl
  · intro ops
    exact foldl_step_pos ops MORTGAGE_INTEREST_RATE
      (by norm_num [MORTGAGE_INTEREST_RATE])

/-- Witness for C5: a requested rate of -5 is rejected, the stored rate
stays 0.025, and every operation sequence keeps the rate positive. -/
theorem C5_interest_rate_invariant_witness :
    change_interest_rate MORTGAGE_INTEREST_RATE reqRateNeg5
      = Except.ok (MORTGAGE_INTEREST_RATE,
        [("old interest rate", RVal.rnum MORTGAGE_INTEREST_RATE),
         ("new interest rate",
          RVal.rstr "Error: negative interest rate is given")]) ∧
    ∀ ops : List Op, 0 < run ops :=
  C5_interest_rate_invariant MORTGAGE_INTEREST_RATE (-5) reqRateNeg5 rfl
    (by norm_num)

end MortgageCalc

namespace MortgageCalc

/-! ### Which exceptions each building block can raise -/

theorem getFloat_error (req : Request) (k : String) (e : PyErr)
    (h : getFloat req k = Except.error e) :
    e = PyErr.valueError ∨ e = PyErr.keyError := by
  unfold getFloat at h
  rcases hl : lookupField req k with _ | v
  · rw [hl] at h
    injection h with h'
    exact Or.inr h'.symm
  · rw [hl] at h
    cases v with
    | jnum q => exact Except.noConfusion h
    | jstr s =>
      injection h with h'
      exact Or.inl h'.symm

theorem getFloat_keyError_lookup (req : Request) (k : String)
    (h : getFloat req k = Except.error PyErr.keyError) :
    lookupField req k = none := by
  unfold getFloat at h
  rcases hl : lookupField req k with _ | v
  · rfl
  · rw [hl] at h
    cases v with
    | jnum q => exact Except.noConfusion h
    | jstr s =>
      injection h with h'
      exact PyErr.noConfusion h'

theorem getSchedule_error (req : Request) (e : PyErr)
    (h : getSchedule req = Except.error e) : e = PyErr.keyError := by
  unfold getSchedule at h
  split at h
  · injection h with h'
    exact h'.symm
  · split at h
    · injection h with h'
      exact h'.symm
    · exact Except.noConfusion h

theorem getDownPaymentOrZero_error (req : Request) (e : PyErr)
    (h : getDownPaymentOrZero req = Except.error e) :
    e = PyErr.valueError := by
  unfold getDownPaymentOrZero at h
  rcases hl : lookupField req "down payment" with _ | v
  · rw [hl] at h
    exact Except.noConfusion h
  · rw [hl] at h
    cases v with
    | jnum q => exact Except.noConfusion h
    | jstr s =>
      injection h with h'
      exact h'.symm

theorem mortgage_insurance_error (dp ap : ℚ) (e : PyErr)
    (h : mortgage_insurance_calculator dp ap = Except.error e) :
    e = PyErr.zeroDivisionError ∧ ap = 0 := by
  unfold mortgage_insurance_calculator at h
  by_cases h0 : ap = 0
  · rw [if_pos h0] at h
    injection h with h'
    exact ⟨h'.symm, h0⟩
  · rw [if_neg h0] at h
    replace h : (if dp / ap ≥ 0.2 ∨ ap > 1000000 then (Except.ok 0 : Except PyErr ℚ)
      else if 0.15 ≤ dp / ap ∧ dp / ap < 0.2 then .ok (ap * 0.018)
      else if 0.1 ≤ dp / ap ∧ dp / ap < 0.15 then .ok (ap * 0.024)
      else .ok (ap * 0.0315)) = Except.error e := h
    split_ifs at h

theorem handle_errors_error (key : String) (x : Except PyErr Response)
    (e : PyErr) (h : handle_errors key x = Except.error e) :
    e = PyErr.zeroDivisionError ∧
      x = Except.error PyErr.zeroDivisionError := by
  rcases x with e' | resp
  · cases e' with
    | valueError => exact Except.noConfusion h
    | keyError => exact Except.noConfusion h
    | zeroDivisionError =>
      injection h with h'
      exact ⟨h'.symm, rfl⟩
  · exact Except.noConfusion h

end MortgageCalc

namespace MortgageCalc

/-- The only exception `payment_amount_body` can raise besides `ValueError`
and `KeyError` is the `ZeroDivisionError` of the insurance computation,
which needs an asking price that parsed to exactly 0. -/
theorem payment_amount_body_error (rate : ℚ) (req : Request) (e : PyErr)
    (h : payment_amount_body rate req = Except.error e) :
    e = PyErr.valueError ∨ e = PyErr.keyError ∨
      (e = PyErr.zeroDivisionError ∧
        getFloat req "asking price" = Except.ok 0) := by
  unfold payment_amount_body at h
  rcases hap : getFloat req "asking price" with e1 | ap
  · rw [hap, error_bind] at h
    injection h with h'
    subst h'
    rcases getFloat_error req "asking price" e1 hap with h1 | h1
    · exact Or.inl h1
    · exact Or.inr (Or.inl h1)
  · rw [hap, ok_bind] at h
    rcases hdp : getFloat req "down payment" with e2 | dp
    · rw [hdp, error_bind] at h
      injection h with h'
      subst h'
      rcases getFloat_error req "down payment" e2 hdp with h1 | h1
      · exact Or.inl h1
      · exact Or.inr (Or.inl h1)
    · rw [hdp, ok_bind] at h
      rcases hs : getSchedule req with e3 | ppy
      · rw [hs, error_bind] at h
        injection h with h'
        subst h'
        exact Or.inr (Or.inl (getSchedule_error req e3 hs))
      · rw [hs, ok_bind] at h
        rcases ham : getFloat req "amortization period" with e4 | am
        · rw [ham, error_bind] at h
          injection h with h'
          subst h'
          rcases getFloat_error req "amortization period" e4 ham with h1 | h1
          · exact Or.inl h1
          · exact Or.inr (Or.inl h1)
        · rw [ham, ok_bind] at h
          by_cases hc1 : ap < 0 ∨ dp < 0 ∨ ¬(5 ≤ am ∧ am ≤ 25)
          · rw [if_pos hc1] at h
            exact Except.noConfusion h
          · rw [if_neg hc1] at h
            by_cases hc2 : dp < minimum_down_payment_calculator ap
            · rw [if_pos hc2] at h
              exact Except.noConfusion h
            · rw [if_neg hc2] at h
              rcases hins : mortgage_insurance_calculator dp ap with e5 | ins
              · rw [hins, error_bind] at h
                injection h with h'
                subst h'
                obtain ⟨h1, h2⟩ := mortgage_insurance_error dp ap e5 hins
                exact Or.inr (Or.inr ⟨h1, congrArg Except.ok h2⟩)
              · rw [hins, ok_bind] at h
                exact Except.noConfusion h

/-- `mortgage_amount_body` can only raise `ValueError` or `KeyError`. -/
theorem mortgage_amount_body_error (rate : ℚ) (req : Request) (e : PyErr)
    (h : mortgage_amount_body rate req = Except.error e) :
    e = PyErr.valueError ∨ e = PyErr.keyError := by
  unfold mortgage_amount_body at h
  rcases hpm : getFloat req "payment amount" with e1 | pm
  · rw [hpm, error_bind] at h
    injection h with h'
    subst h'
    exact getFloat_error req "payment amount" e1 hpm
  · rw [hpm, ok_bind] at h
    rcases hdp : getDownPaymentOrZero req with e2 | dp
    · rw [hdp, error_bind] at h
      injection h with h'
      subst h'
      exact Or.inl (getDownPaymentOrZero_error req e2 hdp)
    · rw [hdp, ok_bind] at h
      rcases hs : getSchedule req with e3 | ppy
      · rw [hs, error_bind] at h
        injection h with h'
        subst h'
        exact Or.inr (getSchedule_error req e3 hs)
      · rw [hs, ok_bind] at h
        rcases ham : getFloat req "amortization period" with e4 | am
        · rw [ham, error_bind] at h
          injection h with h'
          subst h'
          exact getFloat_error req "amortization period" e4 ham
        · rw [ham, ok_bind] at h
          by_cases hc1 : pm < 0 ∨ dp < 0 ∨ ¬(5 ≤ am ∧ am ≤ 25)
          · rw [if_pos hc1] at h
            exact Except.noConfusion h
          · rw [if_neg hc1] at h
            exact Except.noConfusion h

/-- `change_interest_rate_body` can only raise `ValueError`, or `KeyError`
when the `"interest rate"` field is absent. -/
theorem change_interest_rate_body_error (rate : ℚ) (req : Request)
    (e : PyErr) (h : change_interest_rate_body rate req = Except.error e) :
    e = PyErr.valueError ∨
      (e = PyErr.keyError ∧ lookupField req "interest rate" = none) := by
  unfold change_interest_rate_body at h
  rcases hg : getFloat req "interest rate" with e1 | v
  · rw [hg, error_bind] at h
    injection h with h'
    subst h'
    rcases getFloat_error req "interest rate" e1 hg with h1 | h1
    · exact Or.inl h1
    · subst h1
      exact Or.inr ⟨rfl, getFloat_keyError_lookup req "interest rate" hg⟩
  · rw [hg, ok_bind] at h
    by_cases hv : v / 100 ≤ 0
    · rw [if_pos hv] at h
      exact Except.noConfusion h
    · rw [if_neg hv] at h
      exact Except.noConfusion h

end MortgageCalc

namespace MortgageCalc

/-- C6, counterexample: two well-formed JSON requests on which an exception
escapes to the caller instead of a response being returned: a
payment-amount request with asking price 0 (which passes every validation
check and then divides by zero in the insurance computation), and an
interest-rate-change request without the `"interest rate"` field (whose
`KeyError` is not caught, as only `ValueError` is handled there). -/
theorem C6_counterexample :
    payment_amount MORTGAGE_INTEREST_RATE reqPriceZeroDown0
      = Except.error PyErr.zeroDivisionError ∧
    change_interest_rate MORTGAGE_INTEREST_RATE []
      = Except.error PyErr.keyError := by
  constructor
  · unfold payment_amount payment_amount_body
    rw [show getFloat reqPriceZeroDown0 "asking price" = Except.ok 0 from rfl,
      show getFloat reqPriceZeroDown0 "down payment" = Except.ok 0 from rfl,
      show getSchedule reqPriceZeroDown0 = Except.ok 12 from rfl,
      show getFloat reqPriceZeroDown0 "amortization period" = Except.ok 10
        from rfl]
    simp only [ok_bind]
    rw [if_neg (by norm_num),
      if_neg (by norm_num [minimum_down_payment_calculator,
        MIN_DOWN_PAYMENT_RATIO_FIRST_500K]),
      show mortgage_insurance_calculator 0 0
        = Except.error PyErr.zeroDivisionError from rfl]
    rfl
  · rfl

/-- C6 (amended): every well-formed request gets a response with errors as
descriptive strings, except that `payment_amount` lets a
`ZeroDivisionError` escape when the asking price parses to exactly 0, and
`change_interest_rate` lets a `KeyError` escape when the
`"interest rate"` field is absent; `mortgage_amount` always returns a
response. -/
theorem C6_responses_total (rate : ℚ) (req : Request) :
    (∃ resp, mortgage_amount rate req = Except.ok resp) ∧
    (∀ e, payment_amount rate req = Except.error e →
      e = PyErr.zeroDivisionError ∧
        getFloat req "asking price" = Except.ok 0) ∧
    (∀ e, change_interest_rate rate req = Except.error e →
      e = PyErr.keyError ∧ lookupField req "interest rate" = none) := by
  refine ⟨?_, ?_, ?_⟩
  · rcases hb : mortgage_amount_body rate req with e | resp
    · rcases mortgage_amount_body_error rate req e hb with rfl | rfl
      · exact ⟨_, by unfold mortgage_amount; rw [hb]; rfl⟩
      · exact ⟨_, by unfold mortgage_amount; rw [hb]; rfl⟩
    · exact ⟨resp, by unfold mortgage_amount; rw [hb]; rfl⟩
  · intro e h
    unfold payment_amount at h
    obtain ⟨rfl, h2⟩ := handle_errors_error _ _ _ h
    rcases payment_amount_body_error rate req _ h2 with h3 | h3 | h3
    · exact PyErr.noConfusion h3
    · exact PyErr.noConfusion h3
    · exact ⟨rfl, h3.2⟩
  · intro e h
    unfold change_interest_rate at h
    rcases hb : change_interest_rate_body rate req with e' | x
    · rw [hb] at h
      rcases change_interest_rate_body_error rate req e' hb with h1 | ⟨h1, h2⟩
      · subst h1
        exact Except.noConfusion h
      · subst h1
        injection h with h'
        subst h'
        exact ⟨rfl, h2⟩
    · rw [hb] at h
      exact Except.noConfusion h

/-- Witness for C6: the empty request always gets a response from
`mortgage_amount`. -/
theorem C6_responses_total_witness :
    ∃ resp, mortgage_amount MORTGAGE_INTEREST_RATE [] = Except.ok resp :=
  (C6_responses_total MORTGAGE_INTEREST_RATE []).1

end MortgageCalc

namespace MortgageCalc

/-- C7, counterexample: a request whose amortization period is non-numeric
AND whose schedule is unrecognised gets the schedule error, not the
non-numerical-input error, because the schedule label is looked up before
the amortization period is parsed. -/
theorem C7_counterexample :
    payment_amount MORTGAGE_INTEREST_RATE reqDailyBadPeriod
      = Except.ok [("payment amount", RVal.rstr
        "Error: payment schedule should be 'weekly', 'biweekly' or 'monthly'")] ∧
    ("Error: payment schedule should be 'weekly', 'biweekly' or 'monthly'"
      ≠ "Error: non-numerical values are given") :=
  ⟨rfl, by decide⟩

/-- C7 (amended): in `payment_amount` the asking price and down payment are
parsed first (a non-numeric one yields the non-numerical-input error), the
payment schedule is checked next, and the amortization period is parsed
only after the schedule check; hence a request whose amortization period
is non-numeric yields the non-numerical-input error only when the schedule
is recognised, while an unrecognised schedule wins otherwise. -/
theorem C7_validation_order (rate : ℚ) (req : Request) :
    (getFloat req "asking price" = Except.error PyErr.valueError →
      payment_amount rate req = Except.ok [("payment amount",
        RVal.rstr "Error: non-numerical values are given")]) ∧
    (∀ ap dp, getFloat req "asking price" = Except.ok ap →
      getFloat req "down payment" = Except.ok dp →
      getSchedule req = Except.error PyErr.keyError →
      payment_amount rate req = Except.ok [("payment amount", RVal.rstr
        "Error: payment schedule should be 'weekly', 'biweekly' or 'monthly'")]) ∧
    (∀ ap dp ppy, getFloat req "asking price" = Except.ok ap →
      getFloat req "down payment" = Except.ok dp →
      getSchedule req = Except.ok ppy →
      getFloat req "amortization period" = Except.error PyErr.valueError →
      payment_amount rate req = Except.ok [("payment amount",
        RVal.rstr "Error: non-numerical values are given")]) := by
  refine ⟨fun h1 => ?_, fun ap dp h1 h2 h3 => ?_, fun ap dp ppy h1 h2 h3 h4 => ?_⟩
  · unfold payment_amount payment_amount_body
    rw [h1, error_bind]
    rfl
  · unfold payment_amount payment_amount_body
    rw [h1, ok_bind, h2, ok_bind, h3, error_bind]
    rfl
  · unfold payment_amount payment_amount_body
    rw [h1, ok_bind, h2, ok_bind, h3, ok_bind, h4, error_bind]
    rfl

/-- Witness for C7: recognised schedule, non-numeric amortization period. -/
theorem C7_validation_order_witness :
    payment_amount MORTGAGE_INTEREST_RATE
      [("asking price", JVal.jnum 1), ("down payment", JVal.jnum 1),
       ("payment schedule", JVal.jstr "monthly"),
       ("amortization period", JVal.jstr "abc")]
      = Except.ok [("payment amount",
        RVal.rstr "Error: non-numerical values are given")] :=
  (C7_validation_order MORTGAGE_INTEREST_RATE
    [("asking price", JVal.jnum 1), ("down payment", JVal.jnum 1),
     ("payment schedule", JVal.jstr "monthly"),
     ("amortization period", JVal.jstr "abc")]).2.2 1 1 12 rfl rfl rfl rfl

/-- C8, counterexample: a request whose amortization period parses to 30
(outside [5, 25]) but whose asking price is non-numeric yields the
non-numerical-input error, not the out-of-range error. -/
theorem C8_counterexample :
    payment_amount MORTGAGE_INTEREST_RATE reqBadPricePeriod30
      = Except.ok [("payment amount",
        RVal.rstr "Error: non-numerical values are given")] ∧
    ("Error: non-numerical values are given"
      ≠ "Error: given value is not allowed") :=
  ⟨rfl, by decide⟩

/-- C8 (amended): provided the numeric fields parse and the schedule is
recognised, an amortization period outside [5, 25] yields the out-of-range
error on both the payment-amount and the mortgage-amount paths, whatever
the parsed numeric values are. -/
theorem C8_amortization_out_of_range (rate : ℚ) :
    (∀ (req : Request) (ap dp ppy am : ℚ),
      getFloat req "asking price" = Except.ok ap →
      getFloat req "down payment" = Except.ok dp →
      getSchedule req = Except.ok ppy →
      getFloat req "amortization period" = Except.ok am →
      ¬(5 ≤ am ∧ am ≤ 25) →
      payment_amount rate req = Except.ok [("payment amount",
        RVal.rstr "Error: given value is not allowed")]) ∧
    (∀ (req : Request) (pm dp ppy am : ℚ),
      getFloat req "payment amount" = Except.ok pm →
      getDownPaymentOrZero req = Except.ok dp →
      getSchedule req = Except.ok ppy →
      getFloat req "amortization period" = Except.ok am →
      ¬(5 ≤ am ∧ am ≤ 25) →
      mortgage_amount rate req = Except.ok [("mortgage amount",
        RVal.rstr "Error: given value is not allowed")]) := by
  constructor
  · intro req ap dp ppy am h1 h2 h3 h4 h5
    unfold payment_amount payment_amount_body
    rw [h1, ok_bind, h2, ok_bind, h3, ok_bind, h4, ok_bind,
      if_pos (Or.inr (Or.inr h5))]
    rfl
  · intro req pm dp ppy am h1 h2 h3 h4 h5
    unfold mortgage_amount mortgage_amount_body
    rw [h1, ok_bind, h2, ok_bind, h3, ok_bind, h4, ok_bind,
      if_pos (Or.inr (Or.inr h5))]
    rfl

/-- Witness for C8: period 30 with otherwise valid fields is out of range
on both paths. -/
theorem C8_amortization_out_of_range_witness :
    payment_amount MORTGAGE_INTEREST_RATE
      [("asking price", JVal.jnum 1), ("down payment", JVal.jnum 0),
       ("payment schedule", JVal.jstr "monthly"),
       ("amortization period", JVal.jnum 30)]
      = Except.ok [("payment amount",
        RVal.rstr "Error: given value is not allowed")] ∧
    mortgage_amount MORTGAGE_INTEREST_RATE
      [("payment amount", JVal.jnum 1),
       ("payment schedule", JVal.jstr "weekly"),
       ("amortization period", JVal.jnum 30)]
      = Except.ok [("mortgage amount",
        RVal.rstr "Error: given value is not allowed")] :=
  ⟨(C8_amortization_out_of_range MORTGAGE_INTEREST_RATE).1
      [("asking price", JVal.jnum 1), ("down payment", JVal.jnum 0),
       ("payment schedule", JVal.jstr "monthly"),
       ("amortization period", JVal.jnum 30)] 1 0 12 30 rfl rfl rfl rfl
      (by norm_num),
    (C8_amortization_out_of_range MORTGAGE_INTEREST_RATE).2
      [("payment amount", JVal.jnum 1),
       ("payment schedule", JVal.jstr "weekly"),
       ("amortization period", JVal.jnum 30)] 1 0 52 30 rfl rfl rfl rfl
      (by norm_num)⟩

end MortgageCalc

namespace MortgageCalc

/-- Exact value of the rounded payment on principal 330000, monthly rate
0.025/12, 120 periods, written through `annuity_factor`. -/
theorem pay330_eval :
    round2 (330000 * annuity_factor (MORTGAGE_INTEREST_RATE / 12) (10 * 12))
      = 311091 / 100 := by
  have h120 : ((10 : ℚ) * 12) = ((120 : ℕ) : ℚ) := by norm_num
  rw [annuity_factor, h120, fpow_natCast, MORTGAGE_INTEREST_RATE]
  rw [show round2 _ = ((311091 : ℤ) : ℚ) / 100 from
    round2_eq _ 311091 (by norm_num) (by norm_num) (by norm_num)]
  norm_num

/-- Feeding the rounded payment 3110.91 back through the inverse formula
and rounding gives 330000.34, not 330000. -/
theorem back330_eval :
    round2 (311091 / 100 /
        annuity_factor (MORTGAGE_INTEREST_RATE / 12) (10 * 12) + 0)
      = 33000034 / 100 := by
  have h120 : ((10 : ℚ) * 12) = ((120 : ℕ) : ℚ) := by norm_num
  rw [annuity_factor, h120, fpow_natCast, MORTGAGE_INTEREST_RATE]
  rw [show round2 _ = ((33000034 : ℤ) : ℚ) / 100 from
    round2_eq _ 33000034 (by norm_num) (by norm_num) (by norm_num)]
  norm_num

/-- C9, counterexample: the round trip at price 330000 (monthly, 10 years,
rate 0.025) misses the original price by 0.34, far beyond the claimed
2-decimal rounding tolerance, because the 2-decimal rounding of the
intermediate payment is amplified by the inverse annuity factor; moreover
the operation-level composition with down payment 0 never reaches the
formula at all (the minimum-down-payment check rejects it). -/
theorem C9_counterexample :
    round2 (round2 (330000 *
        annuity_factor (MORTGAGE_INTEREST_RATE / 12) (10 * 12)) /
      annuity_factor (MORTGAGE_INTEREST_RATE / 12) (10 * 12) + 0)
      = 33000034 / 100 ∧
    ¬(|(33000034 : ℚ) / 100 - 330000| ≤ 1 / 100) ∧
    payment_amount MORTGAGE_INTEREST_RATE reqRoundTrip
      = Except.ok [("payment amount",
        RVal.rstr "Error: minimum down payment is not satisfied")] := by
  refine ⟨?_, ?_, ?_⟩
  · rw [pay330_eval, back330_eval]
  · rw [abs_of_nonneg (by norm_num)]
    norm_num
  · unfold payment_amount payment_amount_body
    rw [show getFloat reqRoundTrip "asking price" = Except.ok 330000 from rfl,
      show getFloat reqRoundTrip "down payment" = Except.ok 0 from rfl,
      show getSchedule reqRoundTrip = Except.ok 12 from rfl,
      show getFloat reqRoundTrip "amortization period" = Except.ok 10
        from rfl]
    simp only [ok_bind]
    rw [if_neg (by norm_num),
      if_pos (by norm_num [minimum_down_payment_calculator,
        MIN_DOWN_PAYMENT_RATIO_FIRST_500K])]
    rfl

/-- C9 (amended): without the 2-decimal rounding the two formulas are exact
mutual inverses: for every principal, every positive per-period rate and at
least one period, dividing the annuity payment by the annuity factor (and
adding the zero down payment) recovers the principal exactly; the claimed
2-decimal tolerance holds only before rounding is interposed. -/
theorem C9_formulas_exact_inverse (P r : ℚ) (n : ℕ) (hr : 0 < r)
    (hn : 1 ≤ n) :
    P * annuity_factor r (n : ℚ) / annuity_factor r (n : ℚ) + 0 = P := by
  have hpow : fpow (1 + r) (n : ℚ) = (1 + r) ^ n := fpow_natCast _ n
  have h1 : 1 < (1 + r) ^ n := one_lt_pow₀ (by linarith) (by omega)
  have hfac : annuity_factor r (n : ℚ) ≠ 0 := by
    rw [annuity_factor, hpow]
    exact div_ne_zero (ne_of_gt (mul_pos hr (by linarith)))
      (sub_ne_zero.mpr (ne_of_gt h1))
  rw [add_zero, mul_div_assoc, div_self hfac, mul_one]

/-- Witness for C9 at principal 330000, rate 1/480, 120 periods. -/
theorem C9_formulas_exact_inverse_witness :
    330000 * annuity_factor (1 / 480) ((120 : ℕ) : ℚ) /
        annuity_factor (1 / 480) ((120 : ℕ) : ℚ) + 0 = 330000 :=
  C9_formulas_exact_inverse 330000 (1 / 480) 120 (by norm_num) (by norm_num)

end MortgageCalc

namespace MortgageCalc

/-- A missing key makes `float(request_parameter[key])` raise `KeyError`. -/
theorem getFloat_of_lookup_none (req : Request) (k : String)
    (h : lookupField req k = none) :
    getFloat req k = Except.error PyErr.keyError := by
  unfold getFloat
  rw [h]

/-- C10: omitting a required field raises `KeyError`, which is handled by
the same `except KeyError` branch as an unrecognised schedule, so the
operation answers with the payment-schedule error message (for each field,
under the proviso that the fields extracted before it succeed; the
optional down payment of `mortgage_amount` is exempt). -/
theorem C10_missing_field_message (rate : ℚ) (req : Request) :
    (lookupField req "asking price" = none →
      payment_amount rate req = Except.ok [("payment amount", RVal.rstr
        "Error: payment schedule should be 'weekly', 'biweekly' or 'monthly'")]) ∧
    (∀ ap, getFloat req "asking price" = Except.ok ap →
      lookupField req "down payment" = none →
      payment_amount rate req = Except.ok [("payment amount", RVal.rstr
        "Error: payment schedule should be 'weekly', 'biweekly' or 'monthly'")]) ∧
    (∀ ap dp ppy, getFloat req "asking price" = Except.ok ap →
      getFloat req "down payment" = Except.ok dp →
      getSchedule req = Except.ok ppy →
      lookupField req "amortization period" = none →
      payment_amount rate req = Except.ok [("payment amount", RVal.rstr
        "Error: payment schedule should be 'weekly', 'biweekly' or 'monthly'")]) ∧
    (lookupField req "payment amount" = none →
      mortgage_amount rate req = Except.ok [("mortgage amount", RVal.rstr
        "Error: payment schedule should be 'weekly', 'biweekly' or 'monthly'")]) ∧
    (∀ pm dp ppy, getFloat req "payment amount" = Except.ok pm →
      getDownPaymentOrZero req = Except.ok dp →
      getSchedule req = Except.ok ppy →
      lookupField req "amortization period" = none →
      mortgage_amount rate req = Except.ok [("mortgage amount", RVal.rstr
        "Error: payment schedule should be 'weekly', 'biweekly' or 'monthly'")]) := by
  refine ⟨fun h1 => ?_, fun ap h1 h2 => ?_, fun ap dp ppy h1 h2 h3 h4 => ?_,
    fun h1 => ?_, fun pm dp ppy h1 h2 h3 h4 => ?_⟩
  · unfold payment_amount payment_amount_body
    rw [getFloat_of_lookup_none req "asking price" h1, error_bind]
    rfl
  · unfold payment_amount payment_amount_body
    rw [h1, ok_bind, getFloat_of_lookup_none req "down payment" h2,
      error_bind]
    rfl
  · unfold payment_amount payment_amount_body
    rw [h1, ok_bind, h2, ok_bind, h3, ok_bind,
      getFloat_of_lookup_none req "amortization period" h4, error_bind]
    rfl
  · unfold mortgage_amount mortgage_amount_body
    rw [getFloat_of_lookup_none req "payment amount" h1, error_bind]
    rfl
  · unfold mortgage_amount mortgage_amount_body
    rw [h1, ok_bind, h2, ok_bind, h3, ok_bind,
      getFloat_of_lookup_none req "amortization period" h4, error_bind]
    rfl

/-- Witness for C10: a payment-amount request with no fields at all (in
particular no asking price) gets the payment-schedule error message. -/
theorem C10_missing_field_message_witness :
    payment_amount MORTGAGE_INTEREST_RATE [] = Except.ok
      [("payment amount", RVal.rstr
        "Error: payment schedule should be 'weekly', 'biweekly' or 'monthly'")] :=
  (C10_missing_field_message MORTGAGE_INTEREST_RATE []).1 rfl

end MortgageCalc
